import Mathlib

/-!
Verification of the engagement subsystem of the EnglishStoryHub server:
level calculation (`src/utils/levelSystem.ts`), the achievement engine
(`src/utils/achievementSystem.ts`), like/unlike toggles on stories and
comments (`src/services/storyService.ts`, comment controller), and
view-count deduplication (`StoryService.incrementViewCount`).

The TypeScript is shallowly embedded: Mongoose collections become lists of
records, each service function becomes a pure state-passing function, and
the unique `(user, achievementId)` index on the achievement collection
becomes a conditional insert that fails on a duplicate pair.
-/

set_option maxHeartbeats 1000000

namespace EnglishStoryHub

/-! ### `levelSystem.ts` -/

/-- The `nextLevel` payload computed by `getUserLevelInfo`. -/
structure NextLevel where
  level : String
  name : String
  pointsNeeded : Int
deriving Repr, DecidableEq

/-- The record returned by `getUserLevelInfo` (fields of `LEVEL_SYSTEM[level]`
spread into the result; `max := none` stands for `Infinity`). -/
structure LevelInfo where
  level : String
  name : String
  badge : String
  color : String
  min : Int
  max : Option Int
  points : Int
  nextLevel : Option NextLevel
deriving Repr, DecidableEq

/-- `getUserLevelInfo` from `levelSystem.ts`: the `Object.entries(LEVEL_SYSTEM)`
loop visits beginner, intermediate, advanced in insertion order and returns the
first band with `min <= points <= max`; the trailing return is the fallback for
negative input. -/
def getUserLevelInfo (points : Int) : LevelInfo :=
  if 0 ≤ points ∧ points ≤ 99 then
    { level := "beginner", name := "Newbie Writer", badge := "🌱", color := "#22c55e",
      min := 0, max := some 99, points := points,
      nextLevel := some { level := "intermediate", name := "Rising Author",
                          pointsNeeded := 100 - points } }
  else if 100 ≤ points ∧ points ≤ 499 then
    { level := "intermediate", name := "Rising Author", badge := "🌿", color := "#3b82f6",
      min := 100, max := some 499, points := points,
      nextLevel := some { level := "advanced", name := "Master Storyteller",
                          pointsNeeded := 500 - points } }
  else if 500 ≤ points then
    { level := "advanced", name := "Master Storyteller", badge := "🌳", color := "#8b5cf6",
      min := 500, max := none, points := points, nextLevel := none }
  else
    { level := "beginner", name := "Newbie Writer", badge := "🌱", color := "#22c55e",
      min := 0, max := some 99, points := 0, nextLevel := none }

/-- Order on the three level names, for stating monotonicity. -/
def levelRank (level : String) : Nat :=
  if level = "beginner" then 0 else if level = "intermediate" then 1 else 2

/-- C4: for every non-negative point total `p`, `getUserLevelInfo p` has exact
boundaries (beginner on `[0,99]`, intermediate on `[100,499]`, advanced on
`[500,∞)`, so `p = 99` is beginner, `p = 100` and `p = 499` are intermediate,
`p = 500` is advanced) and the level is monotone non-decreasing in `p`. -/
theorem getUserLevelInfo_boundaries_monotone :
    (∀ p : Int, 0 ≤ p →
      (((getUserLevelInfo p).level = "beginner") ↔ p ≤ 99) ∧
      (((getUserLevelInfo p).level = "intermediate") ↔ 100 ≤ p ∧ p ≤ 499) ∧
      (((getUserLevelInfo p).level = "advanced") ↔ 500 ≤ p)) ∧
    (∀ p q : Int, 0 ≤ p → p ≤ q →
      levelRank (getUserLevelInfo p).level ≤ levelRank (getUserLevelInfo q).level) ∧
    (getUserLevelInfo 99).level = "beginner" ∧
    (getUserLevelInfo 100).level = "intermediate" ∧
    (getUserLevelInfo 499).level = "intermediate" ∧
    (getUserLevelInfo 500).level = "advanced" := by
  have hband : ∀ p : Int, 0 ≤ p →
      (((getUserLevelInfo p).level = "beginner") ↔ p ≤ 99) ∧
      (((getUserLevelInfo p).level = "intermediate") ↔ 100 ≤ p ∧ p ≤ 499) ∧
      (((getUserLevelInfo p).level = "advanced") ↔ 500 ≤ p) := by
    intro p hp
    unfold getUserLevelInfo
    split_ifs with h1 h2 h3
    · refine ⟨?_, ?_, ?_⟩ <;> simp <;> omega
    · refine ⟨?_, ?_, ?_⟩ <;> simp <;> omega
    · refine ⟨?_, ?_, ?_⟩ <;> simp <;> omega
    · omega
  refine ⟨hband, ?_, ?_, ?_, ?_, ?_⟩
  · intro p q hp hpq
    have hq : (0 : Int) ≤ q := le_trans hp hpq
    have hbp := hband p hp
    have hbq := hband q hq
    rcases lt_or_le p 100 with hlt | hge
    · rcases lt_or_le q 100 with hqlt | hqge
      · have : (getUserLevelInfo p).level = "beginner" := hbp.1.mpr (by omega)
        have hq' : (getUserLevelInfo q).level = "beginner" := hbq.1.mpr (by omega)
        simp [this, hq', levelRank]
      · have : (getUserLevelInfo p).level = "beginner" := hbp.1.mpr (by omega)
        simp [this, levelRank]
    · rcases lt_or_le p 500 with hlt5 | hge5
      · have hpl : (getUserLevelInfo p).level = "intermediate" := hbp.2.1.mpr (by omega)
        rcases lt_or_le q 500 with hqlt5 | hqge5
        · have hql : (getUserLevelInfo q).level = "intermediate" := hbq.2.1.mpr (by omega)
          simp [hpl, hql, levelRank]
        · have hql : (getUserLevelInfo q).level = "advanced" := hbq.2.2.mpr (by omega)
          simp [hpl, hql, levelRank]
      · have hpl : (getUserLevelInfo p).level = "advanced" := hbp.2.2.mpr (by omega)
        have hql : (getUserLevelInfo q).level = "advanced" := hbq.2.2.mpr (by omega)
        simp [hpl, hql, levelRank]
  · exact (hband 99 (by norm_num)).1.mpr (by norm_num)
  · exact (hband 100 (by norm_num)).2.1.mpr (by norm_num)
  · exact (hband 499 (by norm_num)).2.1.mpr (by norm_num)
  · exact (hband 500 (by norm_num)).2.2.mpr (by norm_num)

/-- Witness for C4 at concrete inputs `p = 99`, `p = 100`, `q = 500`. -/
theorem getUserLevelInfo_boundaries_monotone_witness :
    ((getUserLevelInfo 99).level = "beginner" ↔ (99 : Int) ≤ 99) ∧
    levelRank (getUserLevelInfo 100).level ≤ levelRank (getUserLevelInfo 500).level :=
  ⟨(getUserLevelInfo_boundaries_monotone.1 99 (by norm_num)).1,
   getUserLevelInfo_boundaries_monotone.2.1 100 500 (by norm_num) (by norm_num)⟩

/-! ### Data model: Mongoose collections as lists of records -/

/-- A `User` document (the fields the engagement subsystem reads/writes). -/
structure UserRec where
  uid : Nat
  points : Nat
  level : String
deriving Repr, DecidableEq

/-- A `Story` document (`models/Story.ts`, engagement-relevant fields). -/
structure StoryRec where
  sid : Nat
  author : Nat
  likes : List Nat
  likesCount : Nat
  viewsCount : Nat
  isPublished : Bool
deriving Repr, DecidableEq

/-- A `Comment` document (`models/Comment.ts`, engagement-relevant fields). -/
structure CommentRec where
  cid : Nat
  author : Nat
  likes : List Nat
  likesCount : Nat
deriving Repr, DecidableEq

/-- An `Achievement` document: one unlock record per (user, achievementId). -/
structure UnlockRec where
  user : Nat
  achievementId : String
  title : String
  description : String
  badge : String
  pointsAwarded : Nat
  category : String
deriving Repr, DecidableEq

/-- The persistent state: the four Mongo collections. -/
structure DB where
  users : List UserRec
  stories : List StoryRec
  comments : List CommentRec
  achievements : List UnlockRec
deriving Repr, DecidableEq

/-- `User.findById`. -/
def findUser (db : DB) (uid : Nat) : Option UserRec :=
  db.users.find? (fun u => u.uid == uid)

/-- Stored points of a user (0 when absent). -/
def userPoints (db : DB) (uid : Nat) : Nat :=
  match findUser db uid with
  | some u => u.points
  | none => 0

/-- Stored level of a user. -/
def userLevel (db : DB) (uid : Nat) : Option String :=
  (findUser db uid).map (fun u => u.level)

/-- `User.findByIdAndUpdate(uid, { $inc: { points: delta } })`. -/
def incUserPoints (db : DB) (uid : Nat) (delta : Nat) : DB :=
  { db with users := db.users.map (fun u =>
      if u.uid == uid then { u with points := u.points + delta } else u) }

/-- `User.findByIdAndUpdate(uid, { level: lvl })`. -/
def setUserLevel (db : DB) (uid : Nat) (lvl : String) : DB :=
  { db with users := db.users.map (fun u =>
      if u.uid == uid then { u with level := lvl } else u) }

/-- `Story.countDocuments({ author: uid, isPublished: true })`. -/
def publishedStoryCount (db : DB) (uid : Nat) : Nat :=
  (db.stories.filter (fun s => s.author == uid && s.isPublished)).length

/-- `Story.find({ author: uid }, 'likes')` followed by the reduce that sums
`story.likes.length` (no `isPublished` filter here, as in the source). -/
def totalStoryLikes (db : DB) (uid : Nat) : Nat :=
  ((db.stories.filter (fun s => s.author == uid)).map (fun s => s.likes.length)).sum

/-- `Comment.countDocuments({ author: uid })`. -/
def commentCount (db : DB) (uid : Nat) : Nat :=
  (db.comments.filter (fun c => c.author == uid)).length

/-! ### `achievementSystem.ts` -/

/-- One entry of `ACHIEVEMENT_TEMPLATES`. -/
structure AchievementTemplate where
  title : String
  description : String
  badge : String
  points : Nat
  category : String
deriving Repr, DecidableEq

/-- The `ACHIEVEMENT_TEMPLATES` record, as a lookup by achievement id. -/
def ACHIEVEMENT_TEMPLATES : String → Option AchievementTemplate
  | "FIRST_STORY" =>
      some ⟨"First Steps 🎯", "Published your first story", "🎯", 15, "writing"⟩
  | "STORY_MILESTONE_5" =>
      some ⟨"Storyteller 📚", "Published 5 stories", "📚", 25, "milestone"⟩
  | "STORY_MILESTONE_10" =>
      some ⟨"Prolific Writer ✍️", "Published 10 stories", "✍️", 50, "milestone"⟩
  | "POPULAR_WRITER" =>
      some ⟨"Popular Writer ⭐", "Received 25 total likes across all stories", "⭐", 30, "social"⟩
  | "SOCIAL_BUTTERFLY" =>
      some ⟨"Social Butterfly 💬", "Made 20 comments on other stories", "💬", 20, "social"⟩
  | "LEVEL_UP_INTERMEDIATE" =>
      some ⟨"Rising Author 🌿", "Reached Intermediate level (100+ points)", "🌿", 20, "milestone"⟩
  | "LEVEL_UP_ADVANCED" =>
      some ⟨"Master Storyteller 🌳", "Reached Advanced level (500+ points)", "🌳", 50, "milestone"⟩
  | "ENGAGEMENT_KING" =>
      some ⟨"Engagement King 👑", "One of your stories got 50+ views", "👑", 40, "special"⟩
  | _ => none

/-- The `data?` argument of `checkAndAwardAchievements` (only `newLevel` and
`views` are ever read). -/
structure EventData where
  newLevel : Option String := none
  views : Option Nat := none
deriving Repr, DecidableEq

/-- The `switch (action)` of `checkAndAwardAchievements`, computing
`achievementsToCheck`. -/
def candidatesOf (db : DB) (userId : Nat) (action : String) (data : EventData) :
    List String :=
  match action with
  | "STORY_CREATED" =>
      let storyCount := publishedStoryCount db userId
      (if storyCount == 1 then ["FIRST_STORY"] else []) ++
      (if storyCount == 5 then ["STORY_MILESTONE_5"] else []) ++
      (if storyCount == 10 then ["STORY_MILESTONE_10"] else [])
  | "LEVEL_UP" =>
      (if data.newLevel == some "intermediate" then ["LEVEL_UP_INTERMEDIATE"] else []) ++
      (if data.newLevel == some "advanced" then ["LEVEL_UP_ADVANCED"] else [])
  | "STORY_LIKED" =>
      if 25 ≤ totalStoryLikes db userId then ["POPULAR_WRITER"] else []
  | "COMMENT_MADE" =>
      if 20 ≤ commentCount db userId then ["SOCIAL_BUTTERFLY"] else []
  | "STORY_VIEWS" =>
      match data.views with
      | some v => if 50 ≤ v then ["ENGAGEMENT_KING"] else []
      | none => []
  | _ => []

/-- `Achievement.findOne({ user, achievementId }) !== null`. -/
def hasUnlock (db : DB) (uid : Nat) (aid : String) : Bool :=
  db.achievements.any (fun r => r.user == uid && r.achievementId == aid)

/-- `Achievement.create`: the schema carries a unique `(user, achievementId)`
index (`achievementSchema.index({ user: 1, achievementId: 1 }, { unique: true })`),
so insertion is conditional on non-existence and raises a duplicate-key error
otherwise. -/
def achievementCreate (db : DB) (uid : Nat) (aid : String) (t : AchievementTemplate) :
    Except String (UnlockRec × DB) :=
  if hasUnlock db uid aid then
    Except.error "E11000 duplicate key"
  else
    let r : UnlockRec :=
      ⟨uid, aid, t.title, t.description, t.badge, t.points, t.category⟩
    Except.ok (r, { db with achievements := db.achievements ++ [r] })

/-- The `for (const achievementId of achievementsToCheck)` loop of
`checkAndAwardAchievements`: skip an unknown template, skip a pair found by
`Achievement.findOne`, otherwise create the unlock record and apply its bonus
via `$inc: points`. An error escapes to the surrounding catch together with
the state reached so far. -/
def awardCandidates (uid : Nat) :
    DB → List String → Except (String × DB) (List UnlockRec × DB)
  | db, [] => Except.ok ([], db)
  | db, aid :: rest =>
    match ACHIEVEMENT_TEMPLATES aid with
    | none => awardCandidates uid db rest
    | some t =>
      if hasUnlock db uid aid then
        awardCandidates uid db rest
      else
        match achievementCreate db uid aid t with
        | Except.error e => Except.error (e, db)
        | Except.ok (r, db1) =>
          let db2 := incUserPoints db1 uid t.points
          match awardCandidates uid db2 rest with
          | Except.error ed => Except.error ed
          | Except.ok (more, db3) => Except.ok (r :: more, db3)

/-- The try-block of `checkAndAwardAchievements`: return `[]` when the user
does not exist, otherwise run the award loop over the candidates. -/
def checkBody (db : DB) (uid : Nat) (action : String) (data : EventData) :
    Except (String × DB) (List UnlockRec × DB) :=
  match findUser db uid with
  | none => Except.ok ([], db)
  | some _ => awardCandidates uid db (candidatesOf db uid action data)

/-- `checkAndAwardAchievements` from `achievementSystem.ts`: the body is
wrapped in try/catch, and a caught error yields `[]` with the state the
failing call left behind. -/
def checkAndAwardAchievements (db : DB) (uid : Nat) (action : String) (data : EventData) :
    List UnlockRec × DB :=
  match checkBody db uid action data with
  | Except.ok r => r
  | Except.error (_, s) => ([], s)

/-! ### Like/unlike toggles (`StoryService.toggleLike`, `toggleCommentLike`) -/

/-- `Story.findById`. -/
def findStory (db : DB) (sid : Nat) : Option StoryRec :=
  db.stories.find? (fun s => s.sid == sid)

/-- `Comment.findById`. -/
def findComment (db : DB) (cid : Nat) : Option CommentRec :=
  db.comments.find? (fun c => c.cid == cid)

/-- `story.save()` after the likes array changed: the pre-save hook of
`Story.ts` recomputes `likesCount` from `likes`, and the document is written
back over the stored one with the same id. -/
def saveStoryLikes (db : DB) (s : StoryRec) : DB :=
  let s1 := { s with likesCount := s.likes.length }
  { db with stories := db.stories.map (fun t => if t.sid == s.sid then s1 else t) }

/-- `comment.save()` after the likes array changed (`Comment.ts` pre-save
hook recomputes `likesCount`). -/
def saveCommentLikes (db : DB) (c : CommentRec) : DB :=
  let c1 := { c with likesCount := c.likes.length }
  { db with comments := db.comments.map (fun t => if t.cid == c.cid then c1 else t) }

/-- `StoryService.toggleLike`: remove the reactor from `likes` if present,
else append it; on a fresh like by a non-owner, apply +1 to the owner and
dispatch STORY_LIKED into the achievement engine — both of these read the
database before `story.save()` writes the new likes array back, exactly as in
the source. Returns the new state, the new `hasLiked`, and `likesCount`. -/
def toggleLike (db : DB) (storyId userId : Nat) : Except String (DB × Bool × Nat) :=
  match findStory db storyId with
  | none => Except.error "Story not found"
  | some story =>
    let hasLiked := story.likes.contains userId
    if hasLiked then
      let story1 := { story with likes := story.likes.filter (fun l => l != userId) }
      let db1 := saveStoryLikes db story1
      Except.ok (db1, false, story1.likes.length)
    else
      let story1 := { story with likes := story.likes ++ [userId] }
      let db1 :=
        if story.author != userId then
          let dbA := incUserPoints db story.author 1
          (checkAndAwardAchievements dbA story.author "STORY_LIKED" {}).2
        else db
      let db2 := saveStoryLikes db1 story1
      Except.ok (db2, true, story1.likes.length)

/-- `toggleCommentLike` from the comment controller: same toggle shape as for
stories, +1 to the comment author when not self, and no achievement
dispatch. -/
def toggleCommentLike (db : DB) (commentId userId : Nat) :
    Except String (DB × Bool × Nat) :=
  match findComment db commentId with
  | none => Except.error "Comment not found"
  | some comment =>
    let hasLiked := comment.likes.contains userId
    if hasLiked then
      let c1 := { comment with likes := comment.likes.filter (fun l => l != userId) }
      let db1 := saveCommentLikes db c1
      Except.ok (db1, false, c1.likes.length)
    else
      let c1 := { comment with likes := comment.likes ++ [userId] }
      let db1 :=
        if comment.author != userId then incUserPoints db comment.author 1 else db
      let db2 := saveCommentLikes db1 c1
      Except.ok (db2, true, c1.likes.length)

/-- A like/unlike request: which endpoint was hit and with which ids. -/
inductive ToggleOp where
  | story (sid uid : Nat)
  | comment (cid uid : Nat)
deriving Repr, DecidableEq

/-- One like/unlike request against the persistent state: a failed lookup is
reported to the client and leaves the state unchanged. -/
def applyToggle (db : DB) : ToggleOp → DB
  | ToggleOp.story sid uid =>
    match toggleLike db sid uid with
    | Except.ok r => r.1
    | Except.error _ => db
  | ToggleOp.comment cid uid =>
    match toggleCommentLike db cid uid with
    | Except.ok r => r.1
    | Except.error _ => db

/-- A sequence of like/unlike requests. -/
def applyToggles (db : DB) (ops : List ToggleOp) : DB :=
  ops.foldl applyToggle db

/-! ### View deduplication (`StoryService.incrementViewCount`) -/

/-- `Story.findByIdAndUpdate(storyId, { $inc: { viewsCount: 1 } })`. -/
def incStoryViews (db : DB) (sid : Nat) : DB :=
  { db with stories := db.stories.map (fun s =>
      if s.sid == sid then { s with viewsCount := s.viewsCount + 1 } else s) }

/-- `recentViews.set(key, now)` on the in-memory `Map`. -/
def mapSet (m : List (String × Nat)) (k : String) (v : Nat) : List (String × Nat) :=
  if m.any (fun p => p.1 == k) then
    m.map (fun p => if p.1 == k then (k, v) else p)
  else m ++ [(k, v)]

/-- `StoryService.incrementViewCount`: count the view iff neither the
caller-supplied long-term marker (`hasViewedRecently`, the 24h cookie) nor the
in-memory short-term entry for `viewKey` is present; on a counted view,
increment `viewsCount` and insert the short-term entry. Returns the new
database, the new in-memory map, and whether the view was counted. -/
def incrementViewCount (db : DB) (storyId : Nat) (viewKey : String)
    (hasViewedRecently : Bool) (recentViews : List (String × Nat)) (now : Nat) :
    DB × List (String × Nat) × Bool :=
  let hasViewedInMemory := recentViews.any (fun p => p.1 == viewKey)
  if !hasViewedRecently && !hasViewedInMemory then
    (incStoryViews db storyId, mapSet recentViews viewKey now, true)
  else
    (db, recentViews, false)

/-! ### `StoryService.createStory` -/

/-- The story payload supplied by the client (schema default
`isPublished: true`). -/
structure StoryInput where
  sid : Nat
  isPublished : Bool := true
deriving Repr, DecidableEq

/-- The `levelUp` payload returned by `createStory`. -/
structure LevelUpInfo where
  fromLevel : Option String
  toLevel : String
deriving Repr, DecidableEq

/-- The response payload of `createStory` (engagement-relevant fields). -/
structure CreateStoryResult where
  pointsEarned : Nat
  newAchievements : List UnlockRec
  levelUp : Option LevelUpInfo
  totalPoints : Nat
  level : String
deriving Repr, DecidableEq

/-- `StoryService.createStory`: insert the story, apply the +10 base award
(`$inc`, throwing `User not found` when the user is missing), dispatch
STORY_CREATED into the achievement engine, then compare the stored level
against `getUserLevelInfo(updatedUser.points)` — `updatedUser.points` is the
total right after the +10, not including any achievement bonus — and on a
change store the new level and dispatch LEVEL_UP. -/
def createStory (db : DB) (userId : Nat) (input : StoryInput) :
    Except String (CreateStoryResult × DB) :=
  let story : StoryRec := ⟨input.sid, userId, [], 0, 0, input.isPublished⟩
  let db0 : DB := { db with stories := db.stories ++ [story] }
  match findUser db0 userId with
  | none => Except.error "User not found"
  | some u0 =>
    let db1 := incUserPoints db0 userId 10
    let updatedPoints := u0.points + 10
    let res := checkAndAwardAchievements db1 userId "STORY_CREATED" {}
    let db2 := res.2
    let oldLevel : Option String := userLevel db2 userId
    let newLevelInfo := getUserLevelInfo (Int.ofNat updatedPoints)
    if oldLevel ≠ some newLevelInfo.level then
      let db3 := setUserLevel db2 userId newLevelInfo.level
      let db4 :=
        (checkAndAwardAchievements db3 userId "LEVEL_UP" ⟨some newLevelInfo.level, none⟩).2
      Except.ok
        (⟨10, res.1, some ⟨oldLevel, newLevelInfo.level⟩, updatedPoints, newLevelInfo.level⟩,
          db4)
    else
      Except.ok (⟨10, res.1, none, updatedPoints, newLevelInfo.level⟩, db2)

/-! ### Basic lemmas about the state helpers -/

lemma find?_map_of_pred {α : Type} (f : α → α) (p : α → Bool)
    (hf : ∀ a, p (f a) = p a) (l : List α) :
    (l.map f).find? p = (l.find? p).map f := by
  rw [List.find?_map]
  have hpf : (p ∘ f) = p := funext hf
  rw [hpf]

lemma findUser_incUserPoints (db : DB) (w d u : Nat) :
    findUser (incUserPoints db w d) u =
      (findUser db u).map
        (fun x => if x.uid == w then { x with points := x.points + d } else x) := by
  unfold findUser incUserPoints
  exact find?_map_of_pred _ _ (fun a => by by_cases h : a.uid == w <;> simp [h]) _

lemma findUser_setUserLevel (db : DB) (w : Nat) (lvl : String) (u : Nat) :
    findUser (setUserLevel db w lvl) u =
      (findUser db u).map (fun x => if x.uid == w then { x with level := lvl } else x) := by
  unfold findUser setUserLevel
  exact find?_map_of_pred _ _ (fun a => by by_cases h : a.uid == w <;> simp [h]) _

lemma userPoints_incUserPoints_self (db : DB) (u d : Nat)
    (h : (findUser db u).isSome) :
    userPoints (incUserPoints db u d) u = userPoints db u + d := by
  cases hf : findUser db u with
  | none => rw [hf] at h; simp at h
  | some x =>
    have hf' : db.users.find? (fun y => y.uid == u) = some x := hf
    have hx0 := List.find?_some hf'
    have hx : (x.uid == u) = true := hx0
    have hxe : x.uid = u := by simpa using hx
    unfold userPoints
    rw [findUser_incUserPoints, hf]
    simp [hxe]

lemma userLevel_incUserPoints (db : DB) (w d u : Nat) :
    userLevel (incUserPoints db w d) u = userLevel db u := by
  unfold userLevel
  rw [findUser_incUserPoints]
  cases findUser db u with
  | none => rfl
  | some x =>
    simp only [Option.map_some']
    congr 1
    split <;> rfl

lemma findUser_isSome_incUserPoints (db : DB) (w d u : Nat) :
    (findUser (incUserPoints db w d) u).isSome = (findUser db u).isSome := by
  rw [findUser_incUserPoints]
  cases findUser db u <;> simp

lemma userPoints_setUserLevel (db : DB) (w : Nat) (lvl : String) (u : Nat) :
    userPoints (setUserLevel db w lvl) u = userPoints db u := by
  unfold userPoints
  rw [findUser_setUserLevel]
  cases findUser db u with
  | none => rfl
  | some x =>
    show (if x.uid == w then { x with level := lvl } else x).points = x.points
    split <;> rfl

lemma userLevel_setUserLevel_self (db : DB) (u : Nat) (lvl : String)
    (h : (findUser db u).isSome) :
    userLevel (setUserLevel db u lvl) u = some lvl := by
  cases hf : findUser db u with
  | none => rw [hf] at h; simp at h
  | some x =>
    have hf' : db.users.find? (fun y => y.uid == u) = some x := hf
    have hx0 := List.find?_some hf'
    have hx : (x.uid == u) = true := hx0
    have hxe : x.uid = u := by simpa using hx
    unfold userLevel
    rw [findUser_setUserLevel, hf]
    simp [hxe]

/-! ### The award loop never throws and only appends its results -/

/-- Unfolding the award loop when the template is unknown. -/
lemma awardCandidates_cons_unknown (uid : Nat) (db : DB) (aid : String)
    (rest : List String) (ht : ACHIEVEMENT_TEMPLATES aid = none) :
    awardCandidates uid db (aid :: rest) = awardCandidates uid db rest := by
  simp only [awardCandidates]
  rw [ht]

/-- Unfolding the award loop when the pair is already unlocked. -/
lemma awardCandidates_cons_dup (uid : Nat) (db : DB) (aid : String)
    (rest : List String) (t : AchievementTemplate)
    (ht : ACHIEVEMENT_TEMPLATES aid = some t) (hu : hasUnlock db uid aid = true) :
    awardCandidates uid db (aid :: rest) = awardCandidates uid db rest := by
  simp only [awardCandidates]
  rw [ht]
  show (if hasUnlock db uid aid = true then awardCandidates uid db rest else _) =
    awardCandidates uid db rest
  rw [hu]
  rfl

/-- Unfolding the award loop when the pair is new: the record is inserted and
the bonus applied, then the loop continues. -/
lemma awardCandidates_cons_new (uid : Nat) (db : DB) (aid : String)
    (rest : List String) (t : AchievementTemplate)
    (ht : ACHIEVEMENT_TEMPLATES aid = some t) (hu : hasUnlock db uid aid = false) :
    awardCandidates uid db (aid :: rest) =
      match awardCandidates uid
          (incUserPoints
            { db with achievements := db.achievements ++
                [⟨uid, aid, t.title, t.description, t.badge, t.points, t.category⟩] }
            uid t.points) rest with
      | Except.error ed => Except.error ed
      | Except.ok (more, db3) =>
          Except.ok
            (⟨uid, aid, t.title, t.description, t.badge, t.points, t.category⟩ :: more,
              db3) := by
  have hcr : achievementCreate db uid aid t =
      Except.ok (⟨uid, aid, t.title, t.description, t.badge, t.points, t.category⟩,
        { db with achievements := db.achievements ++
            [⟨uid, aid, t.title, t.description, t.badge, t.points, t.category⟩] }) := by
    unfold achievementCreate
    rw [hu]
    rfl
  simp only [awardCandidates]
  rw [ht]
  show (if hasUnlock db uid aid = true then awardCandidates uid db rest else _) = _
  rw [hu]
  show (match achievementCreate db uid aid t with
        | Except.error e => Except.error (e, db)
        | Except.ok (r, db1) =>
          match awardCandidates uid (incUserPoints db1 uid t.points) rest with
          | Except.error ed => Except.error ed
          | Except.ok (more, db3) => Except.ok (r :: more, db3)) = _
  rw [hcr]

/-- Master lemma about the `for` loop of `checkAndAwardAchievements`: it
always succeeds, leaves stories/comments/levels untouched, appends exactly
the returned unlock records to the achievement collection, and adds exactly
the sum of the returned bonuses to the dispatched user's points. -/
lemma awardCandidates_spec (uid : Nat) (l : List String) : ∀ db : DB,
    ∃ out, awardCandidates uid db l = Except.ok out ∧
      out.2.stories = db.stories ∧
      out.2.comments = db.comments ∧
      out.2.achievements = db.achievements ++ out.1 ∧
      (∀ u, userLevel out.2 u = userLevel db u) ∧
      (∀ u, (findUser out.2 u).isSome = (findUser db u).isSome) ∧
      ((findUser db uid).isSome →
        userPoints out.2 uid =
          userPoints db uid + (out.1.map (fun a => a.pointsAwarded)).sum) := by
  induction l with
  | nil =>
    intro db
    exact ⟨([], db), rfl, rfl, rfl, by simp, fun u => rfl, fun u => rfl, by simp⟩
  | cons aid rest ih =>
    intro db
    cases ht : ACHIEVEMENT_TEMPLATES aid with
    | none =>
      obtain ⟨out, heq, hrest⟩ := ih db
      exact ⟨out, by rw [awardCandidates_cons_unknown uid db aid rest ht]; exact heq, hrest⟩
    | some t =>
      by_cases hu : hasUnlock db uid aid = true
      · obtain ⟨out, heq, hrest⟩ := ih db
        exact ⟨out, by rw [awardCandidates_cons_dup uid db aid rest t ht hu]; exact heq,
          hrest⟩
      · have hu' : hasUnlock db uid aid = false := by
          cases h : hasUnlock db uid aid
          · rfl
          · exact absurd h hu
        obtain ⟨out, heq, hst, hcm, hach, hlv, hsm, hpts⟩ :=
          ih (incUserPoints
            { db with achievements := db.achievements ++
                [⟨uid, aid, t.title, t.description, t.badge, t.points, t.category⟩] }
            uid t.points)
        refine ⟨(⟨uid, aid, t.title, t.description, t.badge, t.points, t.category⟩ :: out.1,
          out.2), ?_, ?_, ?_, ?_, ?_, ?_, ?_⟩
        · rw [awardCandidates_cons_new uid db aid rest t ht hu', heq]
        · exact hst
        · exact hcm
        · rw [hach]
          show (db.achievements ++
              [⟨uid, aid, t.title, t.description, t.badge, t.points, t.category⟩]) ++
              out.1 = _
          simp
        · intro u
          rw [hlv u, userLevel_incUserPoints]
          rfl
        · intro u
          rw [hsm u, findUser_isSome_incUserPoints]
          rfl
        · intro h
          have h2 : (findUser (incUserPoints
              { db with achievements := db.achievements ++
                  [⟨uid, aid, t.title, t.description, t.badge, t.points, t.category⟩] }
              uid t.points) uid).isSome = (findUser db uid).isSome := by
            rw [findUser_isSome_incUserPoints]
            rfl
          have hp2 := userPoints_incUserPoints_self
            { db with achievements := db.achievements ++
                [⟨uid, aid, t.title, t.description, t.badge, t.points, t.category⟩] }
            uid t.points (by show (findUser db uid).isSome = true; exact h)
          have hpo := hpts (by rw [h2]; exact h)
          rw [hpo, hp2]
          rw [List.map_cons, List.sum_cons]
          show userPoints db uid + t.points +
              (List.map (fun a => a.pointsAwarded) out.1).sum =
            userPoints db uid +
              (t.points + (List.map (fun a => a.pointsAwarded) out.1).sum)
          omega

/-- `checkAndAwardAchievements` never throws: its body always returns
`Except.ok`, the catch branch is dead sequentially, and the call only appends
unlock records and bonus points. -/
lemma checkAndAward_spec (db : DB) (uid : Nat) (action : String) (data : EventData) :
    ∃ out, checkBody db uid action data = Except.ok out ∧
      checkAndAwardAchievements db uid action data = out ∧
      out.2.stories = db.stories ∧
      out.2.comments = db.comments ∧
      out.2.achievements = db.achievements ++ out.1 ∧
      (∀ u, userLevel out.2 u = userLevel db u) ∧
      (∀ u, (findUser out.2 u).isSome = (findUser db u).isSome) ∧
      ((findUser db uid).isSome →
        userPoints out.2 uid =
          userPoints db uid + (out.1.map (fun a => a.pointsAwarded)).sum) := by
  cases hf : findUser db uid with
  | none =>
    have hb : checkBody db uid action data = Except.ok ([], db) := by
      unfold checkBody
      rw [hf]
    refine ⟨([], db), hb, ?_, rfl, rfl, by simp, fun u => rfl, fun u => rfl, by simp⟩
    unfold checkAndAwardAchievements
    rw [hb]
  | some u0 =>
    obtain ⟨out, heq, hrest⟩ := awardCandidates_spec uid (candidatesOf db uid action data) db
    have hb : checkBody db uid action data = Except.ok out := by
      unfold checkBody
      rw [hf]
      exact heq
    refine ⟨out, hb, ?_, hrest.1, hrest.2.1, hrest.2.2.1, hrest.2.2.2.1,
      hrest.2.2.2.2.1, fun h => hrest.2.2.2.2.2 (by rw [hf]; rfl)⟩
    unfold checkAndAwardAchievements
    rw [hb]

/-! ### C10 and C2: the achievement engine is total, and duplicates are no-ops -/

/-- C10: `checkAndAwardAchievements` never raises to its caller and always
returns a list: sequentially its try-block always returns `Except.ok` (the
catch branch is dead), and when the target user does not exist the call
returns the empty list without modifying any state. -/
theorem checkAndAwardAchievements_never_throws (db : DB) (uid : Nat)
    (action : String) (data : EventData) :
    (∃ out, checkBody db uid action data = Except.ok out ∧
      checkAndAwardAchievements db uid action data = out) ∧
    (findUser db uid = none →
      checkAndAwardAchievements db uid action data = ([], db)) := by
  obtain ⟨out, hb, hc, _⟩ := checkAndAward_spec db uid action data
  refine ⟨⟨out, hb, hc⟩, fun hnone => ?_⟩
  unfold checkAndAwardAchievements checkBody
  rw [hnone]

/-- Witness for C10: dispatching for a user that is not in the database
returns the empty list and leaves the empty database unchanged. -/
theorem checkAndAwardAchievements_never_throws_witness :
    checkAndAwardAchievements ⟨[], [], [], []⟩ 1 "STORY_CREATED" {} =
      ([], (⟨[], [], [], []⟩ : DB)) :=
  (checkAndAwardAchievements_never_throws ⟨[], [], [], []⟩ 1 "STORY_CREATED" {}).2 rfl

/-- Every event computes at most one candidate achievement id: the
story-count milestones 1/5/10 are mutually exclusive, as are the two level
names, and every other event checks a single rule. -/
lemma candidatesOf_length_le_one (db : DB) (uid : Nat) (action : String)
    (data : EventData) :
    (candidatesOf db uid action data).length ≤ 1 := by
  unfold candidatesOf
  split
  · dsimp only
    split_ifs <;> simp_all
  · split_ifs <;> simp_all
  · split_ifs <;> simp_all
  · split_ifs <;> simp_all
  · split
    · split_ifs <;> simp_all
    · simp
  · simp

/-- A list of length at most one that contains `a` is `[a]`. -/
lemma eq_singleton_of_mem_of_length_le_one {α : Type} {l : List α} {a : α}
    (hlen : l.length ≤ 1) (hmem : a ∈ l) : l = [a] := by
  cases l with
  | nil => simp at hmem
  | cons x xs =>
    cases xs with
    | nil => simp_all
    | cons y ys => simp at hlen

/-- C2: re-dispatching (sequentially) an event whose candidate achievement is
already unlocked for the user is a silent no-op: the body returns `ok`
(nothing is raised), no second unlock record is created, no second bonus is
applied, and the returned newly-unlocked list is empty. -/
theorem duplicate_dispatch_is_noop (db : DB) (uid : Nat) (aid : String)
    (action : String) (data : EventData)
    (hexist : hasUnlock db uid aid = true)
    (hmem : aid ∈ candidatesOf db uid action data) :
    checkBody db uid action data = Except.ok ([], db) ∧
    checkAndAwardAchievements db uid action data = ([], db) := by
  have hsing : candidatesOf db uid action data = [aid] :=
    eq_singleton_of_mem_of_length_le_one
      (candidatesOf_length_le_one db uid action data) hmem
  have hbody : checkBody db uid action data = Except.ok ([], db) := by
    unfold checkBody
    cases hf : findUser db uid with
    | none => rfl
    | some u0 =>
      rw [hsing]
      cases ht : ACHIEVEMENT_TEMPLATES aid with
      | none =>
        rw [awardCandidates_cons_unknown uid db aid [] ht]
        rfl
      | some t =>
        rw [awardCandidates_cons_dup uid db aid [] t ht hexist]
        rfl
  refine ⟨hbody, ?_⟩
  unfold checkAndAwardAchievements
  rw [hbody]

/-- Witness for C2: a user who already unlocked FIRST_STORY dispatches
STORY_CREATED again with a published-story count of 1; nothing changes. -/
theorem duplicate_dispatch_is_noop_witness :
    hasUnlock
        ⟨[⟨7, 25, "beginner"⟩], [⟨1, 7, [], 0, 0, true⟩], [],
          [⟨7, "FIRST_STORY", "First Steps 🎯", "Published your first story", "🎯", 15,
            "writing"⟩]⟩ 7 "FIRST_STORY" = true ∧
      checkAndAwardAchievements
        ⟨[⟨7, 25, "beginner"⟩], [⟨1, 7, [], 0, 0, true⟩], [],
          [⟨7, "FIRST_STORY", "First Steps 🎯", "Published your first story", "🎯", 15,
            "writing"⟩]⟩ 7 "STORY_CREATED" {} =
        ([], ⟨[⟨7, 25, "beginner"⟩], [⟨1, 7, [], 0, 0, true⟩], [],
          [⟨7, "FIRST_STORY", "First Steps 🎯", "Published your first story", "🎯", 15,
            "writing"⟩]⟩) :=
  ⟨by decide,
    (duplicate_dispatch_is_noop _ 7 "FIRST_STORY" "STORY_CREATED" {} (by decide)
      (by decide)).2⟩

/-! ### Unfolding lemmas for the toggles -/

/-- Unlike branch of `toggleLike`. -/
lemma toggleLike_unlike (db : DB) (sid uid : Nat) (story : StoryRec)
    (hf : findStory db sid = some story)
    (hl : story.likes.contains uid = true) :
    toggleLike db sid uid = Except.ok
      (saveStoryLikes db { story with likes := story.likes.filter (fun l => l != uid) },
        false, (story.likes.filter (fun l => l != uid)).length) := by
  simp only [toggleLike, hf, hl, if_true]

/-- Like branch of `toggleLike` for a self-reaction: no points, no dispatch. -/
lemma toggleLike_like_self (db : DB) (sid uid : Nat) (story : StoryRec)
    (hf : findStory db sid = some story)
    (hl : story.likes.contains uid = false)
    (hself : (story.author != uid) = false) :
    toggleLike db sid uid = Except.ok
      (saveStoryLikes db { story with likes := story.likes ++ [uid] },
        true, (story.likes ++ [uid]).length) := by
  simp only [toggleLike, hf, hl, hself, if_false, Bool.false_eq_true]

/-- Like branch of `toggleLike` by a non-owner: +1 to the owner, STORY_LIKED
dispatch, then the save. -/
lemma toggleLike_like_other (db : DB) (sid uid : Nat) (story : StoryRec)
    (hf : findStory db sid = some story)
    (hl : story.likes.contains uid = false)
    (hne : (story.author != uid) = true) :
    toggleLike db sid uid = Except.ok
      (saveStoryLikes
        (checkAndAwardAchievements (incUserPoints db story.author 1) story.author
          "STORY_LIKED" {}).2
        { story with likes := story.likes ++ [uid] },
        true, (story.likes ++ [uid]).length) := by
  simp only [toggleLike, hf, hl, hne, if_true, Bool.false_eq_true, if_false]

/-- Unlike branch of `toggleCommentLike`. -/
lemma toggleCommentLike_unlike (db : DB) (cid uid : Nat) (c : CommentRec)
    (hf : findComment db cid = some c)
    (hl : c.likes.contains uid = true) :
    toggleCommentLike db cid uid = Except.ok
      (saveCommentLikes db { c with likes := c.likes.filter (fun l => l != uid) },
        false, (c.likes.filter (fun l => l != uid)).length) := by
  simp only [toggleCommentLike, hf, hl, if_true]

/-- Like branch of `toggleCommentLike` for a self-reaction. -/
lemma toggleCommentLike_like_self (db : DB) (cid uid : Nat) (c : CommentRec)
    (hf : findComment db cid = some c)
    (hl : c.likes.contains uid = false)
    (hself : (c.author != uid) = false) :
    toggleCommentLike db cid uid = Except.ok
      (saveCommentLikes db { c with likes := c.likes ++ [uid] },
        true, (c.likes ++ [uid]).length) := by
  simp only [toggleCommentLike, hf, hl, hself, if_false, Bool.false_eq_true]

/-- Like branch of `toggleCommentLike` by a non-owner: +1 to the owner. -/
lemma toggleCommentLike_like_other (db : DB) (cid uid : Nat) (c : CommentRec)
    (hf : findComment db cid = some c)
    (hl : c.likes.contains uid = false)
    (hne : (c.author != uid) = true) :
    toggleCommentLike db cid uid = Except.ok
      (saveCommentLikes (incUserPoints db c.author 1) { c with likes := c.likes ++ [uid] },
        true, (c.likes ++ [uid]).length) := by
  simp only [toggleCommentLike, hf, hl, hne, if_true, Bool.false_eq_true, if_false]

/-! ### C3: the denormalized like counters always match the reactor sets -/

/-- Frame property of a dispatch: the achievement engine never touches the
story or comment collections. -/
lemma checkAndAward_frame (db : DB) (uid : Nat) (action : String) (data : EventData) :
    (checkAndAwardAchievements db uid action data).2.stories = db.stories ∧
    (checkAndAwardAchievements db uid action data).2.comments = db.comments := by
  obtain ⟨out, _, hc, hst, hcm, _⟩ := checkAndAward_spec db uid action data
  rw [hc]
  exact ⟨hst, hcm⟩

/-- Well-formedness of the denormalized counters: every stored story and
comment has a duplicate-free reactor list whose length is cached in
`likesCount`. -/
def likesWF (db : DB) : Prop :=
  (∀ s ∈ db.stories, s.likes.Nodup ∧ s.likesCount = s.likes.length) ∧
  (∀ c ∈ db.comments, c.likes.Nodup ∧ c.likesCount = c.likes.length)

lemma saveStoryLikes_WF_stories (db : DB) (s : StoryRec)
    (hdb : ∀ t ∈ db.stories, t.likes.Nodup ∧ t.likesCount = t.likes.length)
    (hs : s.likes.Nodup) :
    ∀ t ∈ (saveStoryLikes db s).stories,
      t.likes.Nodup ∧ t.likesCount = t.likes.length := by
  intro t ht
  simp only [saveStoryLikes, List.mem_map] at ht
  obtain ⟨x, hx, rfl⟩ := ht
  by_cases h : (x.sid == s.sid) = true
  · rw [if_pos h]
    exact ⟨hs, rfl⟩
  · rw [if_neg h]
    exact hdb x hx

lemma saveCommentLikes_WF_comments (db : DB) (c : CommentRec)
    (hdb : ∀ t ∈ db.comments, t.likes.Nodup ∧ t.likesCount = t.likes.length)
    (hc : c.likes.Nodup) :
    ∀ t ∈ (saveCommentLikes db c).comments,
      t.likes.Nodup ∧ t.likesCount = t.likes.length := by
  intro t ht
  simp only [saveCommentLikes, List.mem_map] at ht
  obtain ⟨x, hx, rfl⟩ := ht
  by_cases h : (x.cid == c.cid) = true
  · rw [if_pos h]
    exact ⟨hc, rfl⟩
  · rw [if_neg h]
    exact hdb x hx

/-- One like/unlike request preserves the counter invariant. -/
lemma applyToggle_WF (db : DB) (op : ToggleOp) (h : likesWF db) :
    likesWF (applyToggle db op) := by
  obtain ⟨hs, hc⟩ := h
  cases op with
  | story sid uid =>
    cases hf : findStory db sid with
    | none =>
      have herr : toggleLike db sid uid = Except.error "Story not found" := by
        simp only [toggleLike, hf]
      show likesWF (match toggleLike db sid uid with
        | Except.ok r => r.1
        | Except.error _ => db)
      rw [herr]
      exact ⟨hs, hc⟩
    | some story =>
      have hf' : db.stories.find? (fun s => s.sid == sid) = some story := hf
      have hmem : story ∈ db.stories := List.mem_of_find?_eq_some hf'
      have hwf := hs story hmem
      show likesWF (match toggleLike db sid uid with
        | Except.ok r => r.1
        | Except.error _ => db)
      cases hl : story.likes.contains uid with
      | true =>
        rw [toggleLike_unlike db sid uid story hf hl]
        exact ⟨saveStoryLikes_WF_stories db _ hs (hwf.1.filter _), hc⟩
      | false =>
        have hnodup : (story.likes ++ [uid]).Nodup := by
          have hnm : uid ∉ story.likes := by simpa using hl
          simp [List.nodup_append, hwf.1, hnm]
        cases hne : (story.author != uid) with
        | false =>
          rw [toggleLike_like_self db sid uid story hf hl hne]
          exact ⟨saveStoryLikes_WF_stories db _ hs hnodup, hc⟩
        | true =>
          rw [toggleLike_like_other db sid uid story hf hl hne]
          have hfr := checkAndAward_frame (incUserPoints db story.author 1)
            story.author "STORY_LIKED" {}
          refine ⟨saveStoryLikes_WF_stories _ _ ?_ hnodup, ?_⟩
          · rw [hfr.1]
            exact hs
          · show ∀ t ∈ (checkAndAwardAchievements (incUserPoints db story.author 1)
                story.author "STORY_LIKED" {}).2.comments, _
            rw [hfr.2]
            exact hc
  | comment cid uid =>
    cases hf : findComment db cid with
    | none =>
      have herr : toggleCommentLike db cid uid = Except.error "Comment not found" := by
        simp only [toggleCommentLike, hf]
      show likesWF (match toggleCommentLike db cid uid with
        | Except.ok r => r.1
        | Except.error _ => db)
      rw [herr]
      exact ⟨hs, hc⟩
    | some c =>
      have hf' : db.comments.find? (fun t => t.cid == cid) = some c := hf
      have hmem : c ∈ db.comments := List.mem_of_find?_eq_some hf'
      have hwf := hc c hmem
      show likesWF (match toggleCommentLike db cid uid with
        | Except.ok r => r.1
        | Except.error _ => db)
      cases hl : c.likes.contains uid with
      | true =>
        rw [toggleCommentLike_unlike db cid uid c hf hl]
        exact ⟨hs, saveCommentLikes_WF_comments db _ hc (hwf.1.filter _)⟩
      | false =>
        have hnodup : (c.likes ++ [uid]).Nodup := by
          have hnm : uid ∉ c.likes := by simpa using hl
          simp [List.nodup_append, hwf.1, hnm]
        cases hne : (c.author != uid) with
        | false =>
          rw [toggleCommentLike_like_self db cid uid c hf hl hne]
          exact ⟨hs, saveCommentLikes_WF_comments db _ hc hnodup⟩
        | true =>
          rw [toggleCommentLike_like_other db cid uid c hf hl hne]
          exact ⟨hs, saveCommentLikes_WF_comments _ _ hc hnodup⟩

/-- C3: after any sequence of like/unlike toggles starting from a state whose
counters match, every story and comment has `likesCount` equal to the
cardinality of its reactor set (the pre-save hooks recompute the count from
the set on every mutation). -/
theorem likesCount_matches_reactor_sets (db : DB) (ops : List ToggleOp)
    (h : likesWF db) :
    (∀ s ∈ (applyToggles db ops).stories, s.likesCount = s.likes.toFinset.card) ∧
    (∀ c ∈ (applyToggles db ops).comments, c.likesCount = c.likes.toFinset.card) := by
  have hwf : likesWF (applyToggles db ops) := by
    induction ops generalizing db with
    | nil => exact h
    | cons op rest ih =>
      show likesWF (applyToggles (applyToggle db op) rest)
      exact ih _ (applyToggle_WF db op h)
  refine ⟨fun s hsm => ?_, fun c hcm => ?_⟩
  · have hx := hwf.1 s hsm
    rw [hx.2, List.toFinset_card_of_nodup hx.1]
  · have hx := hwf.2 c hcm
    rw [hx.2, List.toFinset_card_of_nodup hx.1]

/-- Witness for C3: a story liked by two users with one of them unliking,
plus a comment like; the stored counters equal the set cardinalities. -/
theorem likesCount_matches_reactor_sets_witness :
    likesWF ⟨[⟨7, 0, "beginner"⟩], [⟨1, 7, [], 0, 0, true⟩], [⟨2, 7, [], 0⟩], []⟩ ∧
    (∀ s ∈ (applyToggles ⟨[⟨7, 0, "beginner"⟩], [⟨1, 7, [], 0, 0, true⟩],
        [⟨2, 7, [], 0⟩], []⟩
        [ToggleOp.story 1 1, ToggleOp.story 1 2, ToggleOp.story 1 1,
          ToggleOp.comment 2 3]).stories,
      s.likesCount = s.likes.toFinset.card) :=
  ⟨by unfold likesWF; decide,
    (likesCount_matches_reactor_sets _ _ (by unfold likesWF; decide)).1⟩

/-! ### C5: view counting -/

/-- `Story.findById` after a `$inc` of `viewsCount`. -/
lemma findStory_incStoryViews (db : DB) (sid : Nat) :
    findStory (incStoryViews db sid) sid =
      (findStory db sid).map
        (fun s => if s.sid == sid then { s with viewsCount := s.viewsCount + 1 } else s) := by
  unfold findStory incStoryViews
  exact find?_map_of_pred _ _ (fun a => by by_cases h : a.sid == sid <;> simp [h]) _

/-- C5: a view is counted iff neither the long-term marker
(`hasViewedRecently`) nor the short-term in-memory entry for the viewer key is
present (in particular a present long-term marker forces no count regardless
of the short-term state); on a counted view the story's `viewsCount` is
incremented and the short-term entry is inserted, and on an uncounted view
nothing changes. -/
theorem incrementViewCount_spec (db : DB) (storyId : Nat) (viewKey : String)
    (hasViewedRecently : Bool) (recentViews : List (String × Nat)) (now : Nat) :
    ((incrementViewCount db storyId viewKey hasViewedRecently recentViews now).2.2 = true ↔
      (hasViewedRecently = false ∧ recentViews.any (fun p => p.1 == viewKey) = false)) ∧
    (hasViewedRecently = true →
      (incrementViewCount db storyId viewKey hasViewedRecently recentViews now).2.2 = false) ∧
    ((incrementViewCount db storyId viewKey hasViewedRecently recentViews now).2.2 = true →
      ((incrementViewCount db storyId viewKey hasViewedRecently recentViews
          now).2.1.any (fun p => p.1 == viewKey) = true ∧
        ∀ s, findStory db storyId = some s →
          findStory (incrementViewCount db storyId viewKey hasViewedRecently recentViews
            now).1 storyId = some { s with viewsCount := s.viewsCount + 1 })) ∧
    ((incrementViewCount db storyId viewKey hasViewedRecently recentViews now).2.2 = false →
      incrementViewCount db storyId viewKey hasViewedRecently recentViews now =
        (db, recentViews, false)) := by
  cases hm : recentViews.any (fun p => p.1 == viewKey) with
  | true =>
    cases hasViewedRecently <;>
      simp [incrementViewCount, hm]
  | false =>
    cases hasViewedRecently with
    | true => simp [incrementViewCount, hm]
    | false =>
      have hcount : incrementViewCount db storyId viewKey false recentViews now =
          (incStoryViews db storyId, mapSet recentViews viewKey now, true) := by
        simp [incrementViewCount, hm]
      refine ⟨by simp [hcount], by simp, fun _ => ⟨?_, ?_⟩, by simp [hcount]⟩
      · rw [hcount]
        show (mapSet recentViews viewKey now).any (fun p => p.1 == viewKey) = true
        unfold mapSet
        rw [if_neg (by simp [hm])]
        simp
      · intro s hfs
        rw [hcount]
        show findStory (incStoryViews db storyId) storyId = _
        rw [findStory_incStoryViews, hfs]
        have hsid : (s.sid == storyId) = true := by
          have hf' : db.stories.find? (fun t => t.sid == storyId) = some s := hfs
          have h0 := List.find?_some hf'
          exact h0
        have hse : s.sid = storyId := by simpa using hsid
        simp [hse]

/-- Witness for C5 at a concrete story, viewer key and cache. -/
theorem incrementViewCount_spec_witness :
    ((incrementViewCount ⟨[], [⟨1, 7, [], 0, 0, true⟩], [], []⟩ 1 "ip_1" false [] 0).2.2 =
        true ↔ ((false : Bool) = false ∧ ([] : List (String × Nat)).any
          (fun p => p.1 == "ip_1") = false)) ∧
    findStory (incrementViewCount ⟨[], [⟨1, 7, [], 0, 0, true⟩], [], []⟩ 1 "ip_1"
        false [] 0).1 1 = some ⟨1, 7, [], 0, 1, true⟩ :=
  ⟨(incrementViewCount_spec ⟨[], [⟨1, 7, [], 0, 0, true⟩], [], []⟩ 1 "ip_1" false [] 0).1,
    ((incrementViewCount_spec ⟨[], [⟨1, 7, [], 0, 0, true⟩], [], []⟩ 1 "ip_1" false []
        0).2.2.1 (by decide)).2 ⟨1, 7, [], 0, 0, true⟩ (by decide)⟩

/-! ### C8: self-reactions never award points -/

/-- Definitional unfolding of `applyToggle` on a story request. -/
lemma applyToggle_story_eq (db : DB) (sid uid : Nat) :
    applyToggle db (ToggleOp.story sid uid) =
      match toggleLike db sid uid with
      | Except.ok r => r.1
      | Except.error _ => db := rfl

/-- Definitional unfolding of `applyToggle` on a comment request. -/
lemma applyToggle_comment_eq (db : DB) (cid uid : Nat) :
    applyToggle db (ToggleOp.comment cid uid) =
      match toggleCommentLike db cid uid with
      | Except.ok r => r.1
      | Except.error _ => db := rfl

/-- C8: toggling a like on one's own story or comment mutates the reactor set
and count normally but leaves the user collection — in particular the
reactor's own points — untouched. -/
theorem self_toggle_never_awards_points (db : DB) (sid cid uid : Nat) :
    (∀ story, findStory db sid = some story → story.author = uid →
      userPoints (applyToggle db (ToggleOp.story sid uid)) uid = userPoints db uid ∧
      (applyToggle db (ToggleOp.story sid uid)).users = db.users) ∧
    (∀ c, findComment db cid = some c → c.author = uid →
      userPoints (applyToggle db (ToggleOp.comment cid uid)) uid = userPoints db uid ∧
      (applyToggle db (ToggleOp.comment cid uid)).users = db.users) := by
  constructor
  · intro story hf hauth
    cases hl : story.likes.contains uid with
    | true =>
      have heq := toggleLike_unlike db sid uid story hf hl
      rw [applyToggle_story_eq, heq]
      exact ⟨rfl, rfl⟩
    | false =>
      have hself : (story.author != uid) = false := by simp [hauth]
      have heq := toggleLike_like_self db sid uid story hf hl hself
      rw [applyToggle_story_eq, heq]
      exact ⟨rfl, rfl⟩
  · intro c hf hauth
    cases hl : c.likes.contains uid with
    | true =>
      have heq := toggleCommentLike_unlike db cid uid c hf hl
      rw [applyToggle_comment_eq, heq]
      exact ⟨rfl, rfl⟩
    | false =>
      have hself : (c.author != uid) = false := by simp [hauth]
      have heq := toggleCommentLike_like_self db cid uid c hf hl hself
      rw [applyToggle_comment_eq, heq]
      exact ⟨rfl, rfl⟩

/-- Witness for C8: user 7 likes their own story and own comment. -/
theorem self_toggle_never_awards_points_witness :
    userPoints (applyToggle ⟨[⟨7, 5, "beginner"⟩], [⟨1, 7, [], 0, 0, true⟩],
        [⟨2, 7, [], 0⟩], []⟩ (ToggleOp.story 1 7)) 7 =
      userPoints ⟨[⟨7, 5, "beginner"⟩], [⟨1, 7, [], 0, 0, true⟩],
        [⟨2, 7, [], 0⟩], []⟩ 7 ∧
    (applyToggle ⟨[⟨7, 5, "beginner"⟩], [⟨1, 7, [], 0, 0, true⟩],
        [⟨2, 7, [], 0⟩], []⟩ (ToggleOp.story 1 7)).users =
      [⟨7, 5, "beginner"⟩] :=
  (self_toggle_never_awards_points ⟨[⟨7, 5, "beginner"⟩], [⟨1, 7, [], 0, 0, true⟩],
      [⟨2, 7, [], 0⟩], []⟩ 1 2 7).1 ⟨1, 7, [], 0, 0, true⟩ (by decide) rfl

/-! ### C9: like then unlike restores the set and count; the +1 stays -/

/-- After `story.save()`, looking the story up again returns the saved
document (with the recomputed count). -/
lemma findStory_saveStoryLikes (db : DB) (s : StoryRec) (sid : Nat)
    (hsid : (s.sid == sid) = true)
    (hex : (findStory db sid).isSome = true) :
    findStory (saveStoryLikes db s) sid =
      some { s with likesCount := s.likes.length } := by
  have hmap : findStory (saveStoryLikes db s) sid =
      (findStory db sid).map
        (fun t => if t.sid == s.sid then { s with likesCount := s.likes.length } else t) := by
    unfold findStory saveStoryLikes
    refine find?_map_of_pred _ _ (fun a => ?_) _
    by_cases h : (a.sid == s.sid) = true
    · rw [if_pos h]
      have ha : a.sid = s.sid := by simpa using h
      simp [ha]
    · rw [if_neg h]
  rw [hmap]
  cases hff : findStory db sid with
  | none => rw [hff] at hex; simp at hex
  | some x =>
    have hf' : db.stories.find? (fun t => t.sid == sid) = some x := hff
    have hx0 := List.find?_some hf'
    have hx : x.sid = sid := by simpa using hx0
    have hs : s.sid = sid := by simpa using hsid
    simp [hx, hs]

/-- C9: for a reactor not in the set and distinct from the owner, toggling
twice (like then unlike) restores the reactor set and the denormalized count,
the unlike withdraws nothing from any user, and the like added exactly +1 to
the owner plus whatever achievement bonuses the STORY_LIKED dispatch newly
awarded. -/
theorem like_unlike_roundtrip (db : DB) (sid uid : Nat) (s0 : StoryRec)
    (hf : findStory db sid = some s0)
    (hl : s0.likes.contains uid = false)
    (hne : s0.author ≠ uid)
    (hex : (findUser db s0.author).isSome = true)
    (hcount : s0.likesCount = s0.likes.length) :
    (findStory (applyToggle (applyToggle db (ToggleOp.story sid uid))
        (ToggleOp.story sid uid)) sid).map (fun s => (s.likes, s.likesCount)) =
      some (s0.likes, s0.likesCount) ∧
    (applyToggle (applyToggle db (ToggleOp.story sid uid))
        (ToggleOp.story sid uid)).users =
      (applyToggle db (ToggleOp.story sid uid)).users ∧
    userPoints (applyToggle db (ToggleOp.story sid uid)) s0.author =
      userPoints db s0.author + 1 +
        ((checkAndAwardAchievements (incUserPoints db s0.author 1) s0.author
            "STORY_LIKED" {}).1.map (fun a => a.pointsAwarded)).sum := by
  have hne' : (s0.author != uid) = true := by simp [hne]
  have hnm : uid ∉ s0.likes := by simpa using hl
  have hsid : (s0.sid == sid) = true := by
    have hf' : db.stories.find? (fun t => t.sid == sid) = some s0 := hf
    have hx0 := List.find?_some hf'
    exact hx0
  have heq1 := toggleLike_like_other db sid uid s0 hf hl hne'
  obtain ⟨out, hb, hc, hst, hcm, hach, hlv, hsm, hpts⟩ :=
    checkAndAward_spec (incUserPoints db s0.author 1) s0.author "STORY_LIKED" {}
  -- the state after the first toggle
  have hdb1 : applyToggle db (ToggleOp.story sid uid) =
      saveStoryLikes out.2 { s0 with likes := s0.likes ++ [uid] } := by
    rw [applyToggle_story_eq, heq1, hc]
  -- looking the story up after the first toggle
  have hex1 : (findStory out.2 sid).isSome = true := by
    unfold findStory
    rw [hst]
    show (findStory db sid).isSome = true
    rw [hf]
    rfl
  have hf1 : findStory (applyToggle db (ToggleOp.story sid uid)) sid =
      some (⟨s0.sid, s0.author, s0.likes ++ [uid], (s0.likes ++ [uid]).length,
        s0.viewsCount, s0.isPublished⟩ : StoryRec) := by
    rw [hdb1]
    exact findStory_saveStoryLikes out.2 _ sid hsid hex1
  -- the second toggle is an unlike
  have hl2 : (⟨s0.sid, s0.author, s0.likes ++ [uid], (s0.likes ++ [uid]).length,
      s0.viewsCount, s0.isPublished⟩ : StoryRec).likes.contains uid = true := by
    simp
  have heq2 := toggleLike_unlike (applyToggle db (ToggleOp.story sid uid)) sid uid
    _ hf1 hl2
  have hfilter : (s0.likes ++ [uid]).filter (fun l => l != uid) = s0.likes := by
    rw [List.filter_append]
    have h1 : s0.likes.filter (fun l => l != uid) = s0.likes := by
      apply List.filter_eq_self.mpr
      intro x hx
      simp
      exact fun he => hnm (he ▸ hx)
    have h2 : ([uid] : List Nat).filter (fun l => l != uid) = [] := by simp
    rw [h1, h2, List.append_nil]
  have hdb2 : applyToggle (applyToggle db (ToggleOp.story sid uid))
      (ToggleOp.story sid uid) =
      saveStoryLikes (applyToggle db (ToggleOp.story sid uid))
        (⟨s0.sid, s0.author, s0.likes, (s0.likes ++ [uid]).length,
          s0.viewsCount, s0.isPublished⟩ : StoryRec) := by
    rw [applyToggle_story_eq (applyToggle db (ToggleOp.story sid uid)) sid uid, heq2]
    rw [hfilter]
  have hex2 : (findStory (applyToggle db (ToggleOp.story sid uid)) sid).isSome = true := by
    rw [hf1]
    rfl
  refine ⟨?_, ?_, ?_⟩
  · have hsid2 : ((⟨s0.sid, s0.author, s0.likes, (s0.likes ++ [uid]).length,
        s0.viewsCount, s0.isPublished⟩ : StoryRec).sid == sid) = true := hsid
    rw [hdb2, findStory_saveStoryLikes _ _ sid hsid2 hex2]
    simp [hcount]
  · rw [hdb2]
    rfl
  · rw [hdb1]
    show userPoints out.2 s0.author = _
    have hexi : (findUser (incUserPoints db s0.author 1) s0.author).isSome = true := by
      rw [findUser_isSome_incUserPoints]
      exact hex
    rw [hpts hexi, userPoints_incUserPoints_self db s0.author 1 hex, hc]

/-- Witness for C9: reactor 1 likes then unlikes story 1 owned by user 7. -/
theorem like_unlike_roundtrip_witness :
    (findStory (applyToggle (applyToggle ⟨[⟨7, 3, "beginner"⟩],
        [⟨1, 7, [], 0, 0, true⟩], [], []⟩ (ToggleOp.story 1 1))
        (ToggleOp.story 1 1)) 1).map (fun s => (s.likes, s.likesCount)) =
      some (([] : List Nat), 0) ∧
    userPoints (applyToggle ⟨[⟨7, 3, "beginner"⟩], [⟨1, 7, [], 0, 0, true⟩], [], []⟩
        (ToggleOp.story 1 1)) 7 =
      3 + 1 +
        ((checkAndAwardAchievements
            (incUserPoints ⟨[⟨7, 3, "beginner"⟩], [⟨1, 7, [], 0, 0, true⟩], [], []⟩ 7 1)
            7 "STORY_LIKED" {}).1.map (fun a => a.pointsAwarded)).sum := by
  have h := like_unlike_roundtrip ⟨[⟨7, 3, "beginner"⟩], [⟨1, 7, [], 0, 0, true⟩], [], []⟩
    1 1 ⟨1, 7, [], 0, 0, true⟩ (by decide) (by decide) (by decide) (by decide) rfl
  exact ⟨h.1, h.2.2⟩

/-! ### C7: the first-story scenario -/

/-- C7: a user with 0 points, no published stories and no achievements who
publishes their first story gets the +10 base reward, unlocks FIRST_STORY
with its +15 bonus, ends with 25 stored points, and stays at level
beginner. -/
theorem first_story_scenario (db : DB) (uid : Nat) (u0 : UserRec)
    (input : StoryInput)
    (hfu : findUser db uid = some u0)
    (hpts : u0.points = 0)
    (hlvl : u0.level = "beginner")
    (hnost : ∀ s ∈ db.stories, ¬(s.author = uid ∧ s.isPublished = true))
    (hnoach : ∀ a ∈ db.achievements, a.user ≠ uid)
    (hpub : input.isPublished = true) :
    ∃ r db2, createStory db uid input = Except.ok (r, db2) ∧
      r.pointsEarned = 10 ∧
      r.newAchievements.map (fun a => a.achievementId) = ["FIRST_STORY"] ∧
      r.newAchievements.map (fun a => a.pointsAwarded) = [15] ∧
      r.levelUp = none ∧
      userPoints db2 uid = 25 ∧
      userLevel db2 uid = some "beginner" := by
  have hfu0 : findUser { db with stories := db.stories ++ [(⟨input.sid, uid, [], 0, 0, input.isPublished⟩ : StoryRec)] } uid = some u0 := hfu
  have hs0 : (findUser { db with stories := db.stories ++ [(⟨input.sid, uid, [], 0, 0, input.isPublished⟩ : StoryRec)] } uid).isSome = true := by
    rw [hfu0]
    rfl
  have hs1 : (findUser (incUserPoints { db with stories := db.stories ++ [(⟨input.sid, uid, [], 0, 0, input.isPublished⟩ : StoryRec)] } uid 10) uid).isSome = true := by
    rw [findUser_isSome_incUserPoints]
    exact hs0
  have hs1a : (findUser { incUserPoints { db with stories := db.stories ++ [(⟨input.sid, uid, [], 0, 0, input.isPublished⟩ : StoryRec)] } uid 10 with achievements := db.achievements ++ [(⟨uid, "FIRST_STORY", "First Steps 🎯", "Published your first story", "🎯", 15, "writing"⟩ : UnlockRec)] } uid).isSome = true := hs1
  have hcnt : publishedStoryCount (incUserPoints { db with stories := db.stories ++ [(⟨input.sid, uid, [], 0, 0, input.isPublished⟩ : StoryRec)] } uid 10) uid = 1 := by
    show ((db.stories ++ [(⟨input.sid, uid, [], 0, 0, input.isPublished⟩ : StoryRec)]).filter
      (fun s => s.author == uid && s.isPublished)).length = 1
    rw [List.filter_append]
    have h1 : db.stories.filter (fun s => s.author == uid && s.isPublished) = [] := by
      rw [List.filter_eq_nil_iff]
      intro a ha
      simpa using hnost a ha
    have h2 : [(⟨input.sid, uid, [], 0, 0, input.isPublished⟩ : StoryRec)].filter (fun s => s.author == uid && s.isPublished) =
        [(⟨input.sid, uid, [], 0, 0, input.isPublished⟩ : StoryRec)] := by
      simp [hpub]
    rw [h1, h2]
    rfl
  have hcand : candidatesOf (incUserPoints { db with stories := db.stories ++ [(⟨input.sid, uid, [], 0, 0, input.isPublished⟩ : StoryRec)] } uid 10) uid "STORY_CREATED" ({} : EventData) =
      ["FIRST_STORY"] := by
    show ((if (publishedStoryCount (incUserPoints { db with stories := db.stories ++ [(⟨input.sid, uid, [], 0, 0, input.isPublished⟩ : StoryRec)] } uid 10) uid == 1) = true
        then ["FIRST_STORY"] else []) ++
      (if (publishedStoryCount (incUserPoints { db with stories := db.stories ++ [(⟨input.sid, uid, [], 0, 0, input.isPublished⟩ : StoryRec)] } uid 10) uid == 5) = true
        then ["STORY_MILESTONE_5"] else []) ++
      (if (publishedStoryCount (incUserPoints { db with stories := db.stories ++ [(⟨input.sid, uid, [], 0, 0, input.isPublished⟩ : StoryRec)] } uid 10) uid == 10) = true
        then ["STORY_MILESTONE_10"] else [])) = ["FIRST_STORY"]
    rw [hcnt]
    rfl
  have ht : ACHIEVEMENT_TEMPLATES "FIRST_STORY" = some (⟨"First Steps 🎯", "Published your first story", "🎯", 15, "writing"⟩ : AchievementTemplate) := rfl
  have hu : hasUnlock (incUserPoints { db with stories := db.stories ++ [(⟨input.sid, uid, [], 0, 0, input.isPublished⟩ : StoryRec)] } uid 10) uid "FIRST_STORY" = false := by
    show db.achievements.any
      (fun r => r.user == uid && r.achievementId == "FIRST_STORY") = false
    rw [List.any_eq_false]
    intro a ha
    simp only [Bool.and_eq_true, beq_iff_eq, not_and]
    intro he _
    exact hnoach a ha he
  have hexec : awardCandidates uid (incUserPoints { db with stories := db.stories ++ [(⟨input.sid, uid, [], 0, 0, input.isPublished⟩ : StoryRec)] } uid 10) ["FIRST_STORY"] =
      Except.ok ([(⟨uid, "FIRST_STORY", "First Steps 🎯", "Published your first story", "🎯", 15, "writing"⟩ : UnlockRec)], incUserPoints { incUserPoints { db with stories := db.stories ++ [(⟨input.sid, uid, [], 0, 0, input.isPublished⟩ : StoryRec)] } uid 10 with achievements := db.achievements ++ [(⟨uid, "FIRST_STORY", "First Steps 🎯", "Published your first story", "🎯", 15, "writing"⟩ : UnlockRec)] } uid 15) := by
    rw [awardCandidates_cons_new uid (incUserPoints { db with stories := db.stories ++ [(⟨input.sid, uid, [], 0, 0, input.isPublished⟩ : StoryRec)] } uid 10) "FIRST_STORY" [] (⟨"First Steps 🎯", "Published your first story", "🎯", 15, "writing"⟩ : AchievementTemplate) ht hu]
    rfl
  have hbody : checkBody (incUserPoints { db with stories := db.stories ++ [(⟨input.sid, uid, [], 0, 0, input.isPublished⟩ : StoryRec)] } uid 10) uid "STORY_CREATED" ({} : EventData) =
      Except.ok ([(⟨uid, "FIRST_STORY", "First Steps 🎯", "Published your first story", "🎯", 15, "writing"⟩ : UnlockRec)], incUserPoints { incUserPoints { db with stories := db.stories ++ [(⟨input.sid, uid, [], 0, 0, input.isPublished⟩ : StoryRec)] } uid 10 with achievements := db.achievements ++ [(⟨uid, "FIRST_STORY", "First Steps 🎯", "Published your first story", "🎯", 15, "writing"⟩ : UnlockRec)] } uid 15) := by
    unfold checkBody
    split
    · next hnone =>
      rw [hnone] at hs1
      simp at hs1
    · next val hsome =>
      rw [hcand]
      exact hexec
  have hdisp : checkAndAwardAchievements (incUserPoints { db with stories := db.stories ++ [(⟨input.sid, uid, [], 0, 0, input.isPublished⟩ : StoryRec)] } uid 10) uid "STORY_CREATED"
      ({} : EventData) = ([(⟨uid, "FIRST_STORY", "First Steps 🎯", "Published your first story", "🎯", 15, "writing"⟩ : UnlockRec)], incUserPoints { incUserPoints { db with stories := db.stories ++ [(⟨input.sid, uid, [], 0, 0, input.isPublished⟩ : StoryRec)] } uid 10 with achievements := db.achievements ++ [(⟨uid, "FIRST_STORY", "First Steps 🎯", "Published your first story", "🎯", 15, "writing"⟩ : UnlockRec)] } uid 15) := by
    unfold checkAndAwardAchievements
    rw [hbody]
  have hold : userLevel (incUserPoints { incUserPoints { db with stories := db.stories ++ [(⟨input.sid, uid, [], 0, 0, input.isPublished⟩ : StoryRec)] } uid 10 with achievements := db.achievements ++ [(⟨uid, "FIRST_STORY", "First Steps 🎯", "Published your first story", "🎯", 15, "writing"⟩ : UnlockRec)] } uid 15) uid = some "beginner" := by
    rw [userLevel_incUserPoints]
    show userLevel (incUserPoints { db with stories := db.stories ++ [(⟨input.sid, uid, [], 0, 0, input.isPublished⟩ : StoryRec)] } uid 10) uid = some "beginner"
    rw [userLevel_incUserPoints]
    show userLevel db uid = some "beginner"
    unfold userLevel
    rw [hfu]
    simp [hlvl]
  have hold2 : userLevel (([(⟨uid, "FIRST_STORY", "First Steps 🎯", "Published your first story", "🎯", 15, "writing"⟩ : UnlockRec)], incUserPoints { incUserPoints { db with stories := db.stories ++ [(⟨input.sid, uid, [], 0, 0, input.isPublished⟩ : StoryRec)] } uid 10 with achievements := db.achievements ++ [(⟨uid, "FIRST_STORY", "First Steps 🎯", "Published your first story", "🎯", 15, "writing"⟩ : UnlockRec)] } uid 15) :
      List UnlockRec × DB).2 uid = some "beginner" := hold
  have hcreate : createStory db uid input =
      Except.ok (⟨10, [(⟨uid, "FIRST_STORY", "First Steps 🎯", "Published your first story", "🎯", 15, "writing"⟩ : UnlockRec)], none, u0.points + 10, "beginner"⟩, incUserPoints { incUserPoints { db with stories := db.stories ++ [(⟨input.sid, uid, [], 0, 0, input.isPublished⟩ : StoryRec)] } uid 10 with achievements := db.achievements ++ [(⟨uid, "FIRST_STORY", "First Steps 🎯", "Published your first story", "🎯", 15, "writing"⟩ : UnlockRec)] } uid 15) := by
    simp only [createStory]
    split
    · next hnone =>
      rw [hfu0] at hnone
      simp at hnone
    · next val hsome =>
      rw [hfu0] at hsome
      injection hsome with hval
      subst hval
      rw [hdisp, hpts]
      have hnl : (getUserLevelInfo (Int.ofNat (0 + 10))).level = "beginner" := rfl
      have hcond : ¬(userLevel (([(⟨uid, "FIRST_STORY", "First Steps 🎯", "Published your first story", "🎯", 15, "writing"⟩ : UnlockRec)], incUserPoints { incUserPoints { db with stories := db.stories ++ [(⟨input.sid, uid, [], 0, 0, input.isPublished⟩ : StoryRec)] } uid 10 with achievements := db.achievements ++ [(⟨uid, "FIRST_STORY", "First Steps 🎯", "Published your first story", "🎯", 15, "writing"⟩ : UnlockRec)] } uid 15) :
          List UnlockRec × DB).2 uid ≠
            some (getUserLevelInfo (Int.ofNat (0 + 10))).level) := by
        rw [hnl, hold2]
        simp
      rw [if_neg hcond]
      rfl
  refine ⟨⟨10, [(⟨uid, "FIRST_STORY", "First Steps 🎯", "Published your first story", "🎯", 15, "writing"⟩ : UnlockRec)], none, u0.points + 10, "beginner"⟩, incUserPoints { incUserPoints { db with stories := db.stories ++ [(⟨input.sid, uid, [], 0, 0, input.isPublished⟩ : StoryRec)] } uid 10 with achievements := db.achievements ++ [(⟨uid, "FIRST_STORY", "First Steps 🎯", "Published your first story", "🎯", 15, "writing"⟩ : UnlockRec)] } uid 15, hcreate,
    rfl, rfl, rfl, rfl, ?_, hold⟩
  have hp2 : userPoints (incUserPoints { incUserPoints { db with stories := db.stories ++ [(⟨input.sid, uid, [], 0, 0, input.isPublished⟩ : StoryRec)] } uid 10 with achievements := db.achievements ++ [(⟨uid, "FIRST_STORY", "First Steps 🎯", "Published your first story", "🎯", 15, "writing"⟩ : UnlockRec)] } uid 15) uid = userPoints { incUserPoints { db with stories := db.stories ++ [(⟨input.sid, uid, [], 0, 0, input.isPublished⟩ : StoryRec)] } uid 10 with achievements := db.achievements ++ [(⟨uid, "FIRST_STORY", "First Steps 🎯", "Published your first story", "🎯", 15, "writing"⟩ : UnlockRec)] } uid + 15 :=
    userPoints_incUserPoints_self { incUserPoints { db with stories := db.stories ++ [(⟨input.sid, uid, [], 0, 0, input.isPublished⟩ : StoryRec)] } uid 10 with achievements := db.achievements ++ [(⟨uid, "FIRST_STORY", "First Steps 🎯", "Published your first story", "🎯", 15, "writing"⟩ : UnlockRec)] } uid 15 hs1a
  have hp1 : userPoints (incUserPoints { db with stories := db.stories ++ [(⟨input.sid, uid, [], 0, 0, input.isPublished⟩ : StoryRec)] } uid 10) uid = userPoints { db with stories := db.stories ++ [(⟨input.sid, uid, [], 0, 0, input.isPublished⟩ : StoryRec)] } uid + 10 :=
    userPoints_incUserPoints_self { db with stories := db.stories ++ [(⟨input.sid, uid, [], 0, 0, input.isPublished⟩ : StoryRec)] } uid 10 hs0
  have hp0 : userPoints { db with stories := db.stories ++ [(⟨input.sid, uid, [], 0, 0, input.isPublished⟩ : StoryRec)] } uid = u0.points := by
    unfold userPoints
    rw [hfu0]
  rw [hp2]
  show userPoints (incUserPoints { db with stories := db.stories ++ [(⟨input.sid, uid, [], 0, 0, input.isPublished⟩ : StoryRec)] } uid 10) uid + 15 = 25
  rw [hp1, hp0, hpts]

/-- Witness for C7: a fresh user with id 7 and 0 points publishes story 42. -/
theorem first_story_scenario_witness :
    ∃ r db2, createStory ⟨[⟨7, 0, "beginner"⟩], [], [], []⟩ 7 ⟨42, true⟩ =
        Except.ok (r, db2) ∧
      r.pointsEarned = 10 ∧
      r.newAchievements.map (fun a => a.achievementId) = ["FIRST_STORY"] ∧
      r.newAchievements.map (fun a => a.pointsAwarded) = [15] ∧
      r.levelUp = none ∧
      userPoints db2 7 = 25 ∧
      userLevel db2 7 = some "beginner" :=
  first_story_scenario ⟨[⟨7, 0, "beginner"⟩], [], [], []⟩ 7 ⟨7, 0, "beginner"⟩ ⟨42, true⟩
    (by decide) rfl rfl (by simp) (by simp) rfl

/-! ### C1: exactly-once unlock under concurrent dispatch

The loop body of `checkAndAwardAchievements` for one candidate id runs as a
sequence of atomic database operations: `Achievement.findOne`, then (when the
pair was absent) `Achievement.create` — atomic-and-conditional thanks to the
unique `(user, achievementId)` index, raising a duplicate-key error that the
surrounding catch turns into `[]` — then the `$inc` bonus update. The machine
below interleaves `n` concurrent dispatches of the same qualifying event for
the same user over the shared record/points state. -/

namespace AchEngine

/-- Control state of one in-flight dispatch of the candidate's loop body. -/
inductive PState where
  | start
  | checked (found : Bool)
  | created
  | done (awarded : Bool)
  | errored
deriving Repr, DecidableEq

/-- Shared state: the in-flight dispatches plus the database as seen through
this (user, achievement) pair — whether the unlock record exists, how many
create operations succeeded, how many bonus `$inc`s ran, and the user's
points. -/
structure Cfg where
  procs : List PState
  hasRecord : Bool
  recCount : Nat
  bonusApplied : Nat
  points : Nat
deriving Repr, DecidableEq

/-- One atomic database operation by one of the dispatches; `b` is the
template bonus. `findOne` observes the current record existence; `createOk`
is the conditional insert succeeding (record absent); `createDup` is the
unique-index duplicate-key error, caught by the dispatch which then returns
`[]`; `applyBonus` is the `$inc` that follows a successful create. -/
inductive EngineStep (b : Nat) : Cfg → Cfg → Prop where
  | findOne (l1 l2 : List PState) (hr : Bool) (rc ba pts : Nat) :
      EngineStep b ⟨l1 ++ PState.start :: l2, hr, rc, ba, pts⟩
        ⟨l1 ++ PState.checked hr :: l2, hr, rc, ba, pts⟩
  | skipDup (l1 l2 : List PState) (hr : Bool) (rc ba pts : Nat) :
      EngineStep b ⟨l1 ++ PState.checked true :: l2, hr, rc, ba, pts⟩
        ⟨l1 ++ PState.done false :: l2, hr, rc, ba, pts⟩
  | createOk (l1 l2 : List PState) (rc ba pts : Nat) :
      EngineStep b ⟨l1 ++ PState.checked false :: l2, false, rc, ba, pts⟩
        ⟨l1 ++ PState.created :: l2, true, rc + 1, ba, pts⟩
  | createDup (l1 l2 : List PState) (rc ba pts : Nat) :
      EngineStep b ⟨l1 ++ PState.checked false :: l2, true, rc, ba, pts⟩
        ⟨l1 ++ PState.errored :: l2, true, rc, ba, pts⟩
  | applyBonus (l1 l2 : List PState) (hr : Bool) (rc ba pts : Nat) :
      EngineStep b ⟨l1 ++ PState.created :: l2, hr, rc, ba, pts⟩
        ⟨l1 ++ PState.done true :: l2, hr, rc, ba + 1, pts + b⟩

/-- `n` concurrent dispatches about to run against a fresh pair. -/
def initCfg (n pts0 : Nat) : Cfg :=
  ⟨List.replicate n PState.start, false, 0, 0, pts0⟩

/-- Interleaved execution. -/
def Reachable (b : Nat) : Cfg → Cfg → Prop :=
  Relation.ReflTransGen (EngineStep b)

/-- Every dispatch has returned (normally or through the caught error). -/
def allDone (c : Cfg) : Prop :=
  ∀ p ∈ c.procs, p = PState.done true ∨ p = PState.done false ∨ p = PState.errored

/-- The inductive invariant: the record count mirrors record existence, each
successful create is balanced by exactly one pending-or-done bonus, and while
no record exists no dispatch has got past its (negative) existence check. -/
def Inv (b pts0 n : Nat) (c : Cfg) : Prop :=
  c.procs.length = n ∧
  c.recCount = (if c.hasRecord then 1 else 0) ∧
  c.bonusApplied + c.procs.countP (fun p => p == PState.created) = c.recCount ∧
  (c.hasRecord = false →
    ∀ p ∈ c.procs, p = PState.start ∨ p = PState.checked false) ∧
  c.points = pts0 + b * c.bonusApplied

lemma countP_created_start (n : Nat) :
    (List.replicate n PState.start).countP (fun p => p == PState.created) = 0 := by
  rw [List.countP_eq_zero]
  intro a ha
  have h := List.eq_of_mem_replicate ha
  subst h
  simp

lemma inv_init (b pts0 n : Nat) : Inv b pts0 n (initCfg n pts0) := by
  refine ⟨List.length_replicate n PState.start, rfl, ?_, ?_, by simp [initCfg]⟩
  · show 0 + (List.replicate n PState.start).countP (fun p => p == PState.created) = 0
    rw [countP_created_start]
  · intro _ p hp
    exact Or.inl (List.eq_of_mem_replicate hp)

lemma beq_created_start : (PState.start == PState.created) = false := rfl
lemma beq_created_checked (x : Bool) :
    (PState.checked x == PState.created) = false := rfl
lemma beq_created_created : (PState.created == PState.created) = true := rfl
lemma beq_created_done (x : Bool) :
    (PState.done x == PState.created) = false := rfl
lemma beq_created_errored : (PState.errored == PState.created) = false := rfl

lemma inv_step {b pts0 n : Nat} {c c2 : Cfg} (hs : EngineStep b c c2)
    (hinv : Inv b pts0 n c) : Inv b pts0 n c2 := by
  cases hs with
  | findOne l1 l2 hr rc ba pts =>
    obtain ⟨hlen, hrec, hcnt, hfresh, hpt⟩ := hinv
    dsimp only at hlen hrec hcnt hfresh hpt
    refine ⟨?_, ?_, ?_, ?_, ?_⟩ <;> dsimp only
    · simpa using hlen
    · exact hrec
    · simp [List.countP_append, List.countP_cons, beq_created_start,
        beq_created_checked] at hcnt ⊢
      omega
    · intro h p hp
      rcases List.mem_append.mp hp with hp1 | hp2
      · exact hfresh h p (by simp [hp1])
      · rcases List.mem_cons.mp hp2 with rfl | hp3
        · subst h
          exact Or.inr rfl
        · exact hfresh h p (by simp [hp3])
    · exact hpt
  | skipDup l1 l2 hr rc ba pts =>
    obtain ⟨hlen, hrec, hcnt, hfresh, hpt⟩ := hinv
    dsimp only at hlen hrec hcnt hfresh hpt
    refine ⟨?_, ?_, ?_, ?_, ?_⟩ <;> dsimp only
    · simpa using hlen
    · exact hrec
    · simp [List.countP_append, List.countP_cons, beq_created_checked,
        beq_created_done] at hcnt ⊢
      omega
    · intro h
      have hmem : PState.checked true ∈ l1 ++ PState.checked true :: l2 := by simp
      rcases hfresh h (PState.checked true) hmem with h1 | h1 <;> simp at h1
    · exact hpt
  | createOk l1 l2 rc ba pts =>
    obtain ⟨hlen, hrec, hcnt, hfresh, hpt⟩ := hinv
    dsimp only at hlen hrec hcnt hfresh hpt
    simp at hrec
    refine ⟨?_, ?_, ?_, ?_, ?_⟩ <;> dsimp only
    · simpa using hlen
    · simp [hrec]
    · simp [List.countP_append, List.countP_cons, beq_created_checked,
        beq_created_created] at hcnt ⊢
      omega
    · intro h
      exact absurd h (by simp)
    · exact hpt
  | createDup l1 l2 rc ba pts =>
    obtain ⟨hlen, hrec, hcnt, hfresh, hpt⟩ := hinv
    dsimp only at hlen hrec hcnt hfresh hpt
    refine ⟨?_, ?_, ?_, ?_, ?_⟩ <;> dsimp only
    · simpa using hlen
    · exact hrec
    · simp [List.countP_append, List.countP_cons, beq_created_checked,
        beq_created_errored] at hcnt ⊢
      omega
    · intro h
      exact absurd h (by simp)
    · exact hpt
  | applyBonus l1 l2 hr rc ba pts =>
    obtain ⟨hlen, hrec, hcnt, hfresh, hpt⟩ := hinv
    dsimp only at hlen hrec hcnt hfresh hpt
    refine ⟨?_, ?_, ?_, ?_, ?_⟩ <;> dsimp only
    · simpa using hlen
    · exact hrec
    · simp [List.countP_append, List.countP_cons, beq_created_created,
        beq_created_done] at hcnt ⊢
      omega
    · intro h
      have hmem : PState.created ∈ l1 ++ PState.created :: l2 := by simp
      rcases hfresh h PState.created hmem with h1 | h1 <;> simp at h1
    · rw [Nat.mul_add, Nat.mul_one]
      omega

lemma inv_reachable {b pts0 n : Nat} {c c2 : Cfg} (h : Reachable b c c2)
    (hc : Inv b pts0 n c) : Inv b pts0 n c2 := by
  induction h with
  | refl => exact hc
  | tail _ hstep ih => exact inv_step hstep ih

end AchEngine

/-- C1: for any bonus `b`, initial total `pts0` and `n ≥ 1` concurrent
dispatches of the same qualifying event for the same user, every interleaved
execution in which all dispatches have returned ends with the unlock record
present, created exactly once, and the bonus applied to the user's total
exactly once (`points = pts0 + b`). -/
theorem unlock_exactly_once_concurrent (b pts0 n : Nat) (c : AchEngine.Cfg)
    (hn : 1 ≤ n)
    (hr : AchEngine.Reachable b (AchEngine.initCfg n pts0) c)
    (hd : AchEngine.allDone c) :
    c.hasRecord = true ∧ c.recCount = 1 ∧ c.bonusApplied = 1 ∧
      c.points = pts0 + b := by
  have hinv := AchEngine.inv_reachable hr (AchEngine.inv_init b pts0 n)
  obtain ⟨hlen, hrec, hcnt, hfresh, hpt⟩ := hinv
  have hne : c.procs ≠ [] := by
    intro h0
    rw [h0] at hlen
    simp at hlen
    omega
  obtain ⟨p, hp⟩ := List.exists_mem_of_ne_nil c.procs hne
  have hhr : c.hasRecord = true := by
    cases hcase : c.hasRecord with
    | true => rfl
    | false =>
      exfalso
      rcases hfresh hcase p hp with h1 | h1 <;>
        rcases hd p hp with h2 | h2 | h2 <;> simp [h1] at h2
  have hrc : c.recCount = 1 := by
    rw [hrec, hhr]
    rfl
  have hcz : c.procs.countP (fun q => q == AchEngine.PState.created) = 0 := by
    rw [List.countP_eq_zero]
    intro q hq
    rcases hd q hq with h | h | h <;> simp [h]
  have hba : c.bonusApplied = 1 := by
    rw [hcz, hrc] at hcnt
    omega
  refine ⟨hhr, hrc, hba, ?_⟩
  rw [hpt, hba, Nat.mul_one]

/-- Witness for C1: two concurrent dispatches with bonus 20 starting from 95
points; in this trace the second dispatch observes the record at its findOne
and skips, and the final state has one record and one bonus. -/
theorem unlock_exactly_once_concurrent_witness :
    AchEngine.allDone ⟨[AchEngine.PState.done true, AchEngine.PState.done false],
      true, 1, 1, 115⟩ ∧
    (⟨[AchEngine.PState.done true, AchEngine.PState.done false],
      true, 1, 1, 115⟩ : AchEngine.Cfg).recCount = 1 ∧
    (⟨[AchEngine.PState.done true, AchEngine.PState.done false],
      true, 1, 1, 115⟩ : AchEngine.Cfg).bonusApplied = 1 ∧
    (⟨[AchEngine.PState.done true, AchEngine.PState.done false],
      true, 1, 1, 115⟩ : AchEngine.Cfg).points = 95 + 20 := by
  have s1 : AchEngine.EngineStep 20 (AchEngine.initCfg 2 95)
      ⟨[AchEngine.PState.checked false, AchEngine.PState.start], false, 0, 0, 95⟩ :=
    AchEngine.EngineStep.findOne [] [AchEngine.PState.start] false 0 0 95
  have s2 : AchEngine.EngineStep 20
      (⟨[AchEngine.PState.checked false, AchEngine.PState.start], false, 0, 0, 95⟩ :
        AchEngine.Cfg)
      ⟨[AchEngine.PState.created, AchEngine.PState.start], true, 1, 0, 95⟩ :=
    AchEngine.EngineStep.createOk [] [AchEngine.PState.start] 0 0 95
  have s3 : AchEngine.EngineStep 20
      (⟨[AchEngine.PState.created, AchEngine.PState.start], true, 1, 0, 95⟩ :
        AchEngine.Cfg)
      ⟨[AchEngine.PState.done true, AchEngine.PState.start], true, 1, 1, 115⟩ :=
    AchEngine.EngineStep.applyBonus [] [AchEngine.PState.start] true 1 0 95
  have s4 : AchEngine.EngineStep 20
      (⟨[AchEngine.PState.done true, AchEngine.PState.start], true, 1, 1, 115⟩ :
        AchEngine.Cfg)
      ⟨[AchEngine.PState.done true, AchEngine.PState.checked true], true, 1, 1, 115⟩ :=
    AchEngine.EngineStep.findOne [AchEngine.PState.done true] [] true 1 1 115
  have s5 : AchEngine.EngineStep 20
      (⟨[AchEngine.PState.done true, AchEngine.PState.checked true], true, 1, 1, 115⟩ :
        AchEngine.Cfg)
      ⟨[AchEngine.PState.done true, AchEngine.PState.done false], true, 1, 1, 115⟩ :=
    AchEngine.EngineStep.skipDup [AchEngine.PState.done true] [] true 1 1 115
  have hreach : AchEngine.Reachable 20 (AchEngine.initCfg 2 95)
      ⟨[AchEngine.PState.done true, AchEngine.PState.done false], true, 1, 1, 115⟩ :=
    Relation.ReflTransGen.tail
      (Relation.ReflTransGen.tail
        (Relation.ReflTransGen.tail
          (Relation.ReflTransGen.tail (Relation.ReflTransGen.single s1) s2) s3) s4) s5
  have hdone : AchEngine.allDone
      ⟨[AchEngine.PState.done true, AchEngine.PState.done false], true, 1, 1, 115⟩ := by
    unfold AchEngine.allDone
    decide
  have h := unlock_exactly_once_concurrent 20 95 2 _ (by norm_num) hreach hdone
  exact ⟨hdone, h.2.1, h.2.2.1, h.2.2.2⟩

/-! ### C6: reaching 100 points through likes does not change the level -/

/-- Counterexample for C6: a user at 95 points whose story receives five +1
likes from five distinct non-owner reactors reaches exactly 100 points, yet
the stored level is still beginner — not intermediate — and no achievement
(in particular not LEVEL_UP_INTERMEDIATE) was unlocked, because the like path
never dispatches a LEVEL_UP event. -/
theorem like_reaching_100_no_level_up_cex :
    userPoints (applyToggles (⟨[⟨7, 95, "beginner"⟩], [⟨1, 7, [], 0, 0, true⟩], [], []⟩ : DB) [ToggleOp.story 1 1, ToggleOp.story 1 2, ToggleOp.story 1 3, ToggleOp.story 1 4, ToggleOp.story 1 5]) 7 = 100 ∧
    userLevel (applyToggles (⟨[⟨7, 95, "beginner"⟩], [⟨1, 7, [], 0, 0, true⟩], [], []⟩ : DB) [ToggleOp.story 1 1, ToggleOp.story 1 2, ToggleOp.story 1 3, ToggleOp.story 1 4, ToggleOp.story 1 5]) 7 = some "beginner" ∧
    userLevel (applyToggles (⟨[⟨7, 95, "beginner"⟩], [⟨1, 7, [], 0, 0, true⟩], [], []⟩ : DB) [ToggleOp.story 1 1, ToggleOp.story 1 2, ToggleOp.story 1 3, ToggleOp.story 1 4, ToggleOp.story 1 5]) 7 ≠ some "intermediate" ∧
    (applyToggles (⟨[⟨7, 95, "beginner"⟩], [⟨1, 7, [], 0, 0, true⟩], [], []⟩ : DB) [ToggleOp.story 1 1, ToggleOp.story 1 2, ToggleOp.story 1 3, ToggleOp.story 1 4, ToggleOp.story 1 5]).achievements = [] := by
  refine ⟨by decide, by decide, by decide, by decide⟩

/-- C6 as amended: each like adds exactly 1 to the owner's total
(95 → 96 → 97 → 98 → 99 → 100), but upon reaching 100 through likes the
stored level remains beginner and nothing unlocks; the intermediate level
achievement (+20 bonus, exactly once, idempotent on re-dispatch) unlocks only
when a LEVEL_UP event with newLevel = intermediate is dispatched, which the
code does only from story creation. -/
theorem like_reaching_100_amended :
    userPoints (applyToggles (⟨[⟨7, 95, "beginner"⟩], [⟨1, 7, [], 0, 0, true⟩], [], []⟩ : DB) [ToggleOp.story 1 1]) 7 = 96 ∧
    userPoints (applyToggles (⟨[⟨7, 95, "beginner"⟩], [⟨1, 7, [], 0, 0, true⟩], [], []⟩ : DB) [ToggleOp.story 1 1, ToggleOp.story 1 2]) 7 = 97 ∧
    userPoints (applyToggles (⟨[⟨7, 95, "beginner"⟩], [⟨1, 7, [], 0, 0, true⟩], [], []⟩ : DB) [ToggleOp.story 1 1, ToggleOp.story 1 2, ToggleOp.story 1 3]) 7 = 98 ∧
    userPoints (applyToggles (⟨[⟨7, 95, "beginner"⟩], [⟨1, 7, [], 0, 0, true⟩], [], []⟩ : DB) [ToggleOp.story 1 1, ToggleOp.story 1 2, ToggleOp.story 1 3, ToggleOp.story 1 4]) 7 = 99 ∧
    userPoints (applyToggles (⟨[⟨7, 95, "beginner"⟩], [⟨1, 7, [], 0, 0, true⟩], [], []⟩ : DB) [ToggleOp.story 1 1, ToggleOp.story 1 2, ToggleOp.story 1 3, ToggleOp.story 1 4, ToggleOp.story 1 5]) 7 = 100 ∧
    userLevel (applyToggles (⟨[⟨7, 95, "beginner"⟩], [⟨1, 7, [], 0, 0, true⟩], [], []⟩ : DB) [ToggleOp.story 1 1, ToggleOp.story 1 2, ToggleOp.story 1 3, ToggleOp.story 1 4, ToggleOp.story 1 5]) 7 = some "beginner" ∧
    (applyToggles (⟨[⟨7, 95, "beginner"⟩], [⟨1, 7, [], 0, 0, true⟩], [], []⟩ : DB) [ToggleOp.story 1 1, ToggleOp.story 1 2, ToggleOp.story 1 3, ToggleOp.story 1 4, ToggleOp.story 1 5]).achievements = [] ∧
    (checkAndAwardAchievements (applyToggles (⟨[⟨7, 95, "beginner"⟩], [⟨1, 7, [], 0, 0, true⟩], [], []⟩ : DB) [ToggleOp.story 1 1, ToggleOp.story 1 2, ToggleOp.story 1 3, ToggleOp.story 1 4, ToggleOp.story 1 5]) 7 "LEVEL_UP" ⟨some "intermediate", none⟩).1.map (fun a => a.achievementId) = ["LEVEL_UP_INTERMEDIATE"] ∧
    (checkAndAwardAchievements (applyToggles (⟨[⟨7, 95, "beginner"⟩], [⟨1, 7, [], 0, 0, true⟩], [], []⟩ : DB) [ToggleOp.story 1 1, ToggleOp.story 1 2, ToggleOp.story 1 3, ToggleOp.story 1 4, ToggleOp.story 1 5]) 7 "LEVEL_UP" ⟨some "intermediate", none⟩).1.map (fun a => a.pointsAwarded) = [20] ∧
    userPoints (checkAndAwardAchievements (applyToggles (⟨[⟨7, 95, "beginner"⟩], [⟨1, 7, [], 0, 0, true⟩], [], []⟩ : DB) [ToggleOp.story 1 1, ToggleOp.story 1 2, ToggleOp.story 1 3, ToggleOp.story 1 4, ToggleOp.story 1 5]) 7 "LEVEL_UP" ⟨some "intermediate", none⟩).2 7 = 120 ∧
    checkAndAwardAchievements (checkAndAwardAchievements (applyToggles (⟨[⟨7, 95, "beginner"⟩], [⟨1, 7, [], 0, 0, true⟩], [], []⟩ : DB) [ToggleOp.story 1 1, ToggleOp.story 1 2, ToggleOp.story 1 3, ToggleOp.story 1 4, ToggleOp.story 1 5]) 7 "LEVEL_UP" ⟨some "intermediate", none⟩).2 7 "LEVEL_UP" ⟨some "intermediate", none⟩ =
      ([], (checkAndAwardAchievements (applyToggles (⟨[⟨7, 95, "beginner"⟩], [⟨1, 7, [], 0, 0, true⟩], [], []⟩ : DB) [ToggleOp.story 1 1, ToggleOp.story 1 2, ToggleOp.story 1 3, ToggleOp.story 1 4, ToggleOp.story 1 5]) 7 "LEVEL_UP" ⟨some "intermediate", none⟩).2) := by
  refine ⟨by decide, by decide, by decide, by decide, by decide, by decide, by decide,
    by decide, by decide, by decide, by decide⟩

end EnglishStoryHub
